import Mathlib

/-!
Verification of the BayBE discrete search-space and target/serialization layer.

Shallow embedding of the relevant parts of the BayBE repository:

* `baybe/targets/binary.py` — the `BinaryTarget` class, its sample-wise
  `transform_to_binary` encoding and its in-place DataFrame `transform`.
* `benchmarks/result/result.py` — the registered UUID (de)serialization hooks.
* `examples/Constraints_Discrete/custom_constraints.py` — the Scenario-A
  search space (Solvent, Speed, Temperature, Concentration) with the custom
  constraint `custom_function`, and its post-build violation counts.
* `examples/Serialization/validate_config.py` — config validation.

The discrete subspace builder, the custom-constraint engine, the fuzzy
numeric matching and the config validator are part of the repository but
their implementation files are not available here; those parts are modelled
from the specification (each such definition carries a doc comment starting
with `Modelled from the spec:`).

Python floats appearing in the examples are modelled as exact rationals.
-/

/-- A raw experimental cell value: the BayBE experimental representations mix
strings (categorical / substance labels) and numbers; numbers are modelled
as exact rationals. -/
inductive Value where
  | str (s : String)
  | rat (q : ℚ)
deriving DecidableEq, Repr

/-- Error raised by `BinaryTarget.transform_to_binary` for a value outside the
declared target set (`baybe.exceptions.UnknownTargetError`).  The raised error
carries the offending value and the declared value set, mirroring the message
of the Python exception, which names both. -/
inductive TargetError (α : Type) where
  | unknownTarget (value positive negative : α)
deriving DecidableEq

/-- The `BinaryTarget` class from `baybe/targets/binary.py`: a Bernoulli target with an
experimental representation of the positive and of the negative outcome.
The attrs class places no validator on the two fields. -/
structure BinaryTarget (α : Type) where
  name : String
  positive_value : α
  negative_value : α

/-- Sample-wise transform from experimental to computational representation
(`BinaryTarget.transform_to_binary`): `positive_value ↦ 1`,
`negative_value ↦ 0`, anything else raises `UnknownTargetError`. -/
def BinaryTarget.transform_to_binary {α : Type} [DecidableEq α]
    (t : BinaryTarget α) (experimental_representation : α) :
    Except (TargetError α) Nat :=
  if experimental_representation = t.positive_value then .ok 1
  else if experimental_representation = t.negative_value then .ok 0
  else .error (.unknownTarget experimental_representation
    t.positive_value t.negative_value)

/-- A pandas DataFrame, reduced to what `BinaryTarget.transform` touches:
named columns with column-major data. -/
structure DataFrame where
  columns : List String
  colData : List (List Value)

/-- Mutable references to DataFrames: `transform` mutates its argument frame
in place, so it is modelled as acting on a heap of frames. -/
abbrev DfRef := Nat

/-- The heap of DataFrame objects. -/
abbrev DfHeap := DfRef → DataFrame

/-- Errors of `BinaryTarget.transform`: the `assert data.shape[1] == 1`
failure, or an `UnknownTargetError` escaping from the element-wise
`transform_to_binary`. -/
inductive TransformError where
  | assertionFailed
  | target (e : TargetError Value)

/-- The method `BinaryTarget.transform`: asserts the frame has exactly one column,
recomputes that column by applying `transform_to_binary` element-wise
(as `data[c] = data[c].apply(...)`), writes it back into the same frame
in place, and returns the very same reference. -/
def BinaryTarget.transform (t : BinaryTarget Value) (heap : DfHeap)
    (r : DfRef) : Except TransformError (DfHeap × DfRef) :=
  let df := heap r
  if df.columns.length = 1 then
    match (df.colData.headD []).mapM t.transform_to_binary with
    | .error e => .error (.target e)
    | .ok codes =>
        .ok (Function.update heap r
          { df with colData := codes.map Value.rat :: df.colData.tail }, r)
  else .error .assertionFailed

/-- C3: `transform_to_binary` is total over the declared domain — it returns
code 1 for the positive value, code 0 for the negative value — and for any
value outside the domain it fails with the distinct, named
`UnknownTargetError` carrying the offending value and the declared value
set, never a generic catch-all. -/
theorem binary_target_encoding_total_over_domain
    {α : Type} [DecidableEq α] (t : BinaryTarget α) (v : α) :
    (v = t.positive_value → t.transform_to_binary v = .ok 1) ∧
    (v ≠ t.positive_value → v = t.negative_value →
      t.transform_to_binary v = .ok 0) ∧
    (v ≠ t.positive_value → v ≠ t.negative_value →
      t.transform_to_binary v =
        .error (.unknownTarget v t.positive_value t.negative_value)) := by
  refine ⟨fun hp => ?_, fun hp hn => ?_, fun hp hn => ?_⟩ <;>
    simp [BinaryTarget.transform_to_binary, hp] <;> simp [hn]

/-- Witness for C3 at the concrete target `⟨"done", 1, 0⟩` over `ℤ`. -/
theorem binary_target_encoding_total_over_domain_witness :
    (BinaryTarget.mk "done" (1 : ℤ) 0).transform_to_binary 1 = .ok 1 ∧
    (BinaryTarget.mk "done" (1 : ℤ) 0).transform_to_binary 0 = .ok 0 ∧
    (BinaryTarget.mk "done" (1 : ℤ) 0).transform_to_binary 5 =
      .error (.unknownTarget 5 1 0) :=
  ⟨(binary_target_encoding_total_over_domain _ _).1 rfl,
   (binary_target_encoding_total_over_domain _ _).2.1 (by decide) rfl,
   (binary_target_encoding_total_over_domain _ _).2.2 (by decide) (by decide)⟩

/-- C8: the positive value is checked first, so any input equal to
`positive_value` yields 1 regardless of `negative_value`; construction does
not forbid `positive_value = negative_value`, and for such a target the
code 0 is unreachable, so injectivity of the encoding is not enforced. -/
theorem binary_target_positive_checked_first :
    (∃ t : BinaryTarget ℤ, t.positive_value = t.negative_value) ∧
    (∀ (α : Type) [DecidableEq α] (t : BinaryTarget α) (v : α),
      v = t.positive_value → t.transform_to_binary v = .ok 1) ∧
    (∀ (α : Type) [DecidableEq α] (t : BinaryTarget α),
      t.positive_value = t.negative_value →
      ∀ v, t.transform_to_binary v ≠ .ok 0) := by
  refine ⟨⟨⟨"y", 7, 7⟩, rfl⟩, ?_, ?_⟩
  · intro α _ t v hp
    simp [BinaryTarget.transform_to_binary, hp]
  · intro α _ t h v hv
    by_cases hp : v = t.positive_value <;>
      simp [BinaryTarget.transform_to_binary, hp, ← h] at hv

/-- Witness for C8 at the degenerate target `⟨"y", 7, 7⟩`: the shared value
maps to 1, and no input maps to 0. -/
theorem binary_target_positive_checked_first_witness :
    (BinaryTarget.mk "y" (7 : ℤ) 7).transform_to_binary 7 = .ok 1 ∧
    (BinaryTarget.mk "y" (7 : ℤ) 7).transform_to_binary 7 ≠ .ok 0 :=
  ⟨binary_target_positive_checked_first.2.1 ℤ _ 7 rfl,
   binary_target_positive_checked_first.2.2 ℤ _ rfl 7⟩

/-- C9: `transform` is not pure in its frame argument: it asserts the frame
has exactly one column (failing the assertion otherwise), and on success it
returns the very same reference it was given, having overwritten that
single column of that frame in place with the binary encoding; all other heap
entries are untouched. -/
theorem binary_target_transform_mutates_in_place
    (t : BinaryTarget Value) (heap : DfHeap) (r : DfRef) :
    ((heap r).columns.length ≠ 1 →
      t.transform heap r = .error .assertionFailed) ∧
    (∀ heap2 r2, t.transform heap r = .ok (heap2, r2) →
      r2 = r ∧
      (heap2 r).columns = (heap r).columns ∧
      (∃ codes, ((heap r).colData.headD []).mapM t.transform_to_binary =
          .ok codes ∧
        (heap2 r).colData = codes.map Value.rat :: (heap r).colData.tail) ∧
      (∀ r3, r3 ≠ r → heap2 r3 = heap r3)) := by
  constructor
  · intro h
    simp only [BinaryTarget.transform]
    rw [if_neg h]
  · intro heap2 r2 hok
    simp only [BinaryTarget.transform] at hok
    by_cases hc : (heap r).columns.length = 1
    · rw [if_pos hc] at hok
      rcases hm : ((heap r).colData.headD []).mapM t.transform_to_binary with
        e | codes
      · rw [hm] at hok; cases hok
      · rw [hm] at hok
        cases hok
        refine ⟨rfl, ?_, ⟨codes, rfl, ?_⟩, ?_⟩
        · rw [Function.update_same]
        · rw [Function.update_same]
        · intro r3 h3
          exact Function.update_noteq h3 _ heap
    · rw [if_neg hc] at hok; cases hok

/-- Witness for C9: on a concrete two-column frame the assertion fails. -/
theorem binary_target_transform_mutates_in_place_witness :
    ((fun _ => DataFrame.mk ["a", "b"] [[], []] : DfHeap) 0).columns.length
      ≠ 1 ∧
    (BinaryTarget.mk "y" (Value.rat 1) (Value.rat 0)).transform
        (fun _ => DataFrame.mk ["a", "b"] [[], []]) 0 =
      .error .assertionFailed :=
  ⟨by decide,
   (binary_target_transform_mutates_in_place
      (BinaryTarget.mk "y" (Value.rat 1) (Value.rat 0))
      (fun _ => DataFrame.mk ["a", "b"] [[], []]) 0).1 (by decide)⟩

/-- A lowercase hex digit, as produced by the Python `"%032x"` formatting of
the UUID integer inside `str(uuid)`. -/
def hexChar (n : Nat) : Char :=
  if n < 10 then Char.ofNat (48 + n) else Char.ofNat (87 + n)

/-- The value of one hex digit as read by the Python `int(hex, 16)` call
(both cases accepted), `none` on a non-hex character. -/
def hexVal (c : Char) : Option Nat :=
  if 48 ≤ c.toNat ∧ c.toNat ≤ 57 then some (c.toNat - 48)
  else if 97 ≤ c.toNat ∧ c.toNat ≤ 102 then some (c.toNat - 87)
  else if 65 ≤ c.toNat ∧ c.toNat ≤ 70 then some (c.toNat - 55)
  else none

/-- The `k` least-significant hex digits of `n`, least significant first. -/
def toHexLE : Nat → Nat → List Char
  | 0, _ => []
  | k + 1, n => hexChar (n % 16) :: toHexLE k (n / 16)

/-- The 32 hex digits of a UUID integer, most significant first
(the Python `"%032x" % int`). -/
def uuidDigits (u : Nat) : List Char :=
  (toHexLE 32 u).reverse

/-- The registered unstructure hook for `UUID` in `benchmarks/result/result.py`
(`lambda x: str(x)`): the canonical hyphenated 8-4-4-4-12 lowercase hex
string of the 128-bit integer. -/
def uuidUnstructure (u : Nat) : List Char :=
  (uuidDigits u).take 8 ++ ['-'] ++ ((uuidDigits u).drop 8).take 4 ++ ['-']
    ++ ((uuidDigits u).drop 12).take 4 ++ ['-']
    ++ ((uuidDigits u).drop 16).take 4 ++ ['-'] ++ (uuidDigits u).drop 20

/-- Failures of the `UUID` string constructor. -/
inductive UuidError where
  | badLength (n : Nat)
  | badDigit
deriving DecidableEq

/-- Big-endian hex-string value, `none` when a character is not hex
(`int(hex, 16)`). -/
def parseHexBE (cs : List Char) : Option Nat :=
  cs.foldl
    (fun acc c =>
      match acc, hexVal c with
      | some a, some d => some (16 * a + d)
      | _, _ => none)
    (some 0)

/-- The registered structure hook for `UUID` (`lambda x, _: UUID(x)`):
the Python `UUID` constructor strips the hyphens, requires exactly 32 hex
digits and reads them as one base-16 integer. -/
def uuidStructure (s : List Char) : Except UuidError Nat :=
  if ((s.filter (fun c => c ≠ '-')).length = 32) then
    match parseHexBE (s.filter (fun c => c ≠ '-')) with
    | some n => .ok n
    | none => .error .badDigit
  else .error (.badLength (s.filter (fun c => c ≠ '-')).length)

theorem length_toHexLE (k : Nat) : ∀ n, (toHexLE k n).length = k := by
  induction k with
  | zero => intro n; rfl
  | succ k ih => intro n; simp [toHexLE, ih]

theorem hexVal_hexChar : ∀ d, d < 16 → hexVal (hexChar d) = some d := by
  decide

theorem hexChar_ne_dash : ∀ d, d < 16 → hexChar d ≠ '-' := by
  decide

theorem mem_toHexLE {k : Nat} :
    ∀ {n : Nat} {c : Char}, c ∈ toHexLE k n → ∃ d, d < 16 ∧ c = hexChar d := by
  induction k with
  | zero => intro n c h; cases h
  | succ k ih =>
    intro n c h
    rcases List.mem_cons.mp h with h | h
    · exact ⟨n % 16, Nat.mod_lt _ (by omega), h⟩
    · exact ih h

theorem mem_uuidDigits_ne_dash {u : Nat} {c : Char}
    (h : c ∈ uuidDigits u) : c ≠ '-' := by
  rcases mem_toHexLE (List.mem_reverse.mp h) with ⟨d, hd, rfl⟩
  exact hexChar_ne_dash d hd

theorem parseHexBE_toHexLE (k : Nat) :
    ∀ n, parseHexBE ((toHexLE k n).reverse) = some (n % 16 ^ k) := by
  induction k with
  | zero => intro n; simp [toHexLE, parseHexBE, Nat.mod_one]
  | succ k ih =>
    intro n
    have hstep := ih (n / 16)
    simp only [toHexLE, List.reverse_cons, parseHexBE, List.foldl_append,
      List.foldl_cons, List.foldl_nil] at hstep ⊢
    rw [hstep, hexVal_hexChar (n % 16) (Nat.mod_lt _ (by omega))]
    have h16 : 16 ^ (k + 1) = 16 * 16 ^ k := by ring
    rw [h16, Nat.mod_mul]
    exact congrArg some (Nat.add_comm _ _)

theorem take_drop_reassemble (d : List Char) :
    d.take 8 ++ ((d.drop 8).take 4 ++ ((d.drop 12).take 4 ++
      ((d.drop 16).take 4 ++ d.drop 20))) = d := by
  have h20 : (d.drop 16).take 4 ++ d.drop 20 = d.drop 16 := by
    have h := List.take_append_drop 4 (d.drop 16)
    rw [List.drop_drop] at h
    norm_num at h
    exact h
  have h16 : (d.drop 12).take 4 ++ d.drop 16 = d.drop 12 := by
    have h := List.take_append_drop 4 (d.drop 12)
    rw [List.drop_drop] at h
    norm_num at h
    exact h
  have h12 : (d.drop 8).take 4 ++ d.drop 12 = d.drop 8 := by
    have h := List.take_append_drop 4 (d.drop 8)
    rw [List.drop_drop] at h
    norm_num at h
    exact h
  rw [h20, h16, h12, List.take_append_drop]

theorem filter_hyphenated (d : List Char) (hd : ∀ c ∈ d, c ≠ '-') :
    (d.take 8 ++ ['-'] ++ (d.drop 8).take 4 ++ ['-'] ++ (d.drop 12).take 4
      ++ ['-'] ++ (d.drop 16).take 4 ++ ['-'] ++ d.drop 20).filter
        (fun c => c ≠ '-') = d := by
  have hall : ∀ l : List Char, (∀ c ∈ l, c ∈ d) →
      l.filter (fun c => c ≠ '-') = l := by
    intro l hl
    refine List.filter_eq_self.mpr fun c hc => ?_
    simpa using hd c (hl c hc)
  have ht8 : ∀ c ∈ d.take 8, c ∈ d :=
    fun c hc => List.mem_of_mem_take hc
  have ht12 : ∀ c ∈ (d.drop 8).take 4, c ∈ d :=
    fun c hc => List.mem_of_mem_drop (List.mem_of_mem_take hc)
  have ht16 : ∀ c ∈ (d.drop 12).take 4, c ∈ d :=
    fun c hc => List.mem_of_mem_drop (List.mem_of_mem_take hc)
  have ht20 : ∀ c ∈ (d.drop 16).take 4, c ∈ d :=
    fun c hc => List.mem_of_mem_drop (List.mem_of_mem_take hc)
  have htl : ∀ c ∈ d.drop 20, c ∈ d :=
    fun c hc => List.mem_of_mem_drop hc
  have hdash : List.filter (fun c => c ≠ '-') ['-'] = [] := by decide
  simp only [List.filter_append, hdash,
    hall _ ht8, hall _ ht12, hall _ ht16, hall _ ht20, hall _ htl,
    List.append_nil, List.nil_append, List.append_assoc]
  exact take_drop_reassemble d

theorem uuidUnstructure_filter (u : Nat) :
    (uuidUnstructure u).filter (fun c => c ≠ '-') = uuidDigits u :=
  filter_hyphenated (uuidDigits u) fun _ hc => mem_uuidDigits_ne_dash hc

/-- C5: the registered UUID (de)serialization hooks are mutually inverse —
structuring the unstructured form of any 128-bit UUID integer reconstructs
it exactly. -/
theorem uuid_hooks_roundtrip (u : Nat) (hu : u < 2 ^ 128) :
    uuidStructure (uuidUnstructure u) = .ok u := by
  have hlen : (uuidDigits u).length = 32 := by
    simp [uuidDigits, length_toHexLE]
  have hparse : parseHexBE (uuidDigits u) = some u := by
    rw [uuidDigits, parseHexBE_toHexLE]
    congr 1
    have h : (16 : Nat) ^ 32 = 2 ^ 128 := by norm_num
    rw [h]
    exact Nat.mod_eq_of_lt hu
  rw [uuidStructure, uuidUnstructure_filter, if_pos hlen, hparse]

/-- Witness for C5 at a concrete UUID integer. -/
theorem uuid_hooks_roundtrip_witness :
    314159 < 2 ^ 128 ∧
    uuidStructure (uuidUnstructure 314159) = .ok 314159 :=
  ⟨by norm_num, uuid_hooks_roundtrip 314159 (by norm_num)⟩

/-- Error taxonomy for matching measured values back into a numeric-discrete
parameter (spec §7): within tolerance of two or more levels, or of none. -/
inductive MatchError where
  | ambiguousToleranceMatch (value : ℚ)
  | noMatch (value : ℚ)
deriving DecidableEq

/-- Modelled from the spec: the numeric-discrete tolerance matching of
measured raw values (the implementation of `NumericDiscrete` value matching
is not among the provided sources).  Spec §4.3: "nearest-level lookup within
tolerance, ambiguous if closer than tolerance to two levels ⇒ error"; a
value within tolerance of no level is a no-match error. -/
def matchLevels (values : List ℚ) (tolerance : ℚ) (measured : ℚ) :
    Except MatchError ℚ :=
  match values.filter (fun l => |measured - l| ≤ tolerance) with
  | [] => .error (.noMatch measured)
  | [l] => .ok l
  | _ :: _ :: _ => .error (.ambiguousToleranceMatch measured)

/-- C6: for values {1, 2, 5, 10} with tolerance 0.4, a measured 1.3 resolves
to level 1; a measured 3.5 — farther than the tolerance from both 2 and 5 —
fails with the defined no-match error; and in general a value within
tolerance of two distinct levels fails with the ambiguous-match error. -/
theorem numeric_discrete_tolerance_matching :
    (matchLevels [1, 2, 5, 10] (4/10) (13/10) = .ok 1) ∧
    (matchLevels [1, 2, 5, 10] (4/10) (7/2) =
      .error (.noMatch (7/2))) ∧
    (∀ (values : List ℚ) (tol v l1 l2 : ℚ), l1 ∈ values → l2 ∈ values →
      l1 ≠ l2 → |v - l1| ≤ tol → |v - l2| ≤ tol →
      matchLevels values tol v = .error (.ambiguousToleranceMatch v)) := by
  refine ⟨?_, ?_, ?_⟩
  · have e1 : decide (|(13/10 : ℚ) - 1| ≤ 4/10) = true := by
      rw [decide_eq_true_eq, abs_le]; constructor <;> norm_num
    have e2 : decide (|(13/10 : ℚ) - 2| ≤ 4/10) = false := by
      rw [decide_eq_false_iff_not, abs_le]; intro h; rcases h with ⟨h1, h2⟩
      norm_num at h1
    have e3 : decide (|(13/10 : ℚ) - 5| ≤ 4/10) = false := by
      rw [decide_eq_false_iff_not, abs_le]; intro h; rcases h with ⟨h1, h2⟩
      norm_num at h1
    have e4 : decide (|(13/10 : ℚ) - 10| ≤ 4/10) = false := by
      rw [decide_eq_false_iff_not, abs_le]; intro h; rcases h with ⟨h1, h2⟩
      norm_num at h1
    simp only [matchLevels, List.filter, e1, e2, e3, e4]
  · have e1 : decide (|(7/2 : ℚ) - 1| ≤ 4/10) = false := by
      rw [decide_eq_false_iff_not, abs_le]; intro h; rcases h with ⟨h1, h2⟩
      norm_num at h2
    have e2 : decide (|(7/2 : ℚ) - 2| ≤ 4/10) = false := by
      rw [decide_eq_false_iff_not, abs_le]; intro h; rcases h with ⟨h1, h2⟩
      norm_num at h2
    have e3 : decide (|(7/2 : ℚ) - 5| ≤ 4/10) = false := by
      rw [decide_eq_false_iff_not, abs_le]; intro h; rcases h with ⟨h1, h2⟩
      norm_num at h1
    have e4 : decide (|(7/2 : ℚ) - 10| ≤ 4/10) = false := by
      rw [decide_eq_false_iff_not, abs_le]; intro h; rcases h with ⟨h1, h2⟩
      norm_num at h1
    simp only [matchLevels, List.filter, e1, e2, e3, e4]
  intro values tol v l1 l2 h1 h2 hne hd1 hd2
  have hm1 : l1 ∈ values.filter (fun l => |v - l| ≤ tol) :=
    List.mem_filter.mpr ⟨h1, by simpa using hd1⟩
  have hm2 : l2 ∈ values.filter (fun l => |v - l| ≤ tol) :=
    List.mem_filter.mpr ⟨h2, by simpa using hd2⟩
  rcases hf : values.filter (fun l => |v - l| ≤ tol) with _ | ⟨a, _ | ⟨b, t⟩⟩
  · rw [hf] at hm1; cases hm1
  · rw [hf] at hm1 hm2
    rcases List.mem_singleton.mp hm1 with rfl
    rcases List.mem_singleton.mp hm2 with h
    exact absurd (List.mem_singleton.mp hm2).symm hne
  · simp [matchLevels, hf]

/-- Witness for the general ambiguity clause of C6 at values {0, 1/2},
tolerance 1, measured 0. -/
theorem numeric_discrete_tolerance_matching_witness :
    (0 : ℚ) ∈ [(0 : ℚ), 1/2] ∧ (1/2 : ℚ) ∈ [(0 : ℚ), 1/2] ∧
    (0 : ℚ) ≠ 1/2 ∧ |(0 : ℚ) - 0| ≤ 1 ∧ |(0 : ℚ) - 1/2| ≤ 1 ∧
    matchLevels [0, 1/2] 1 0 = .error (.ambiguousToleranceMatch 0) :=
  ⟨by simp, by simp, by norm_num, by simp, by rw [abs_le]; constructor <;> norm_num,
   numeric_discrete_tolerance_matching.2.2 [0, 1/2] 1 0 0 (1/2)
     (by simp) (by simp) (by norm_num) (by simp)
     (by rw [abs_le]; constructor <;> norm_num)⟩

/-- The parameter types known to the config validator (the types exercised
by `examples/Serialization/validate_config.py`). -/
def knownParameterTypes : List String :=
  ["Categorical", "NumericDiscrete", "GenericSubstance"]

/-- One parameter declaration of a configuration: its declared type tag and
its name. -/
structure ParameterConfig where
  type : String
  name : String
deriving DecidableEq

/-- A configuration, reduced to the part `BayBE.validate_config` inspects for
parameter-type errors. -/
structure BaybeConfig where
  parameters : List ParameterConfig
deriving DecidableEq

/-- Error raised for a parameter declaring an unknown type. -/
inductive ValidationError where
  | unknownParameterType (t : String)
deriving DecidableEq

/-- Modelled from the spec: `BayBE.validate_config` (its implementation is
not among the provided sources) checks configuration shape eagerly at
validation time — spec §7: "configuration-shape errors … are detected
eagerly at construction time, not deferred to evaluation time" — rejecting
any parameter whose declared type is unknown. -/
def validate_config (config : BaybeConfig) : Except ValidationError Unit :=
  match config.parameters.find?
      (fun p => !(knownParameterTypes.contains p.type)) with
  | some p => .error (.unknownParameterType p.type)
  | none => .ok ()

/-- The valid configuration `CONFIG` of
`examples/Serialization/validate_config.py`, reduced to its parameter
type/name declarations. -/
def CONFIG : BaybeConfig :=
  ⟨[⟨"Categorical", "Granularity"⟩, ⟨"NumericDiscrete", "Pressure[bar]"⟩,
    ⟨"GenericSubstance", "Solvent"⟩]⟩

/-- The `INVALID_CONFIG` of the same example: identical except that the
first parameter declares the unknown type `INVALID_TYPE`. -/
def INVALID_CONFIG : BaybeConfig :=
  ⟨[⟨"INVALID_TYPE", "Granularity"⟩, ⟨"NumericDiscrete", "Pressure[bar]"⟩,
    ⟨"GenericSubstance", "Solvent"⟩]⟩

/-- C7: configuration-shape errors surface from `validate_config` itself:
the configuration with the unknown parameter type `INVALID_TYPE` is
rejected at validation time, while the identical configuration with the
known type `Categorical` validates without error. -/
theorem validate_config_eager :
    validate_config CONFIG = .ok () ∧
    validate_config INVALID_CONFIG =
      .error (.unknownParameterType "INVALID_TYPE") := by
  constructor <;> rfl

/-- Configuration error for a constraint referencing an unknown parameter
name (spec §7: "`ConstraintEvaluationError` (validator raised, or referenced
unknown parameter name)", detected eagerly at construction time). -/
inductive ConstraintConfigError where
  | unknownParameter (name : String)
deriving DecidableEq

/-- Name lookup in one experimental row, given as an association of
parameter names to raw values. -/
def lookupRow (row : List (String × Value)) (n : String) : Option Value :=
  match row with
  | [] => none
  | (m, v) :: rest => if m = n then some v else lookupRow rest n

/-- A user-supplied validator: the parameter names it references, and the
predicate itself, which reads row values by parameter name only. -/
structure CustomValidator where
  uses : List String
  run : (String → Option Value) → Bool

/-- A custom constraint: the declared list of parameter names whose values
are passed to the validator, plus the validator. -/
structure CustomConstraint where
  parameters : List String
  validator : CustomValidator

/-- Modelled from the spec: `CustomConstraint.create` (the constraint-engine
implementation is not among the provided sources).  Spec §4.2: the engine
"must fail fast with a configuration error if the validator references
parameter names absent from the declared list or from the search space". -/
def CustomConstraint.create (searchspaceParams : List String)
    (parameters : List String) (validator : CustomValidator) :
    Except ConstraintConfigError CustomConstraint :=
  match parameters.find? (fun n => !(searchspaceParams.contains n)) with
  | some n => .error (.unknownParameter n)
  | none =>
    match validator.uses.find? (fun n => !(parameters.contains n)) with
    | some n => .error (.unknownParameter n)
    | none => .ok ⟨parameters, validator⟩

/-- Modelled from the spec: evaluation of a custom constraint on one row.
Spec §4.2: the values of the declared parameters "are passed to it *by
name*  — the engine must bind arguments by name, not position", so the
validator receives the name-indexed restriction of the row to the declared
parameter list. -/
def CustomConstraint.is_valid (c : CustomConstraint)
    (row : List (String × Value)) : Bool :=
  c.validator.run
    (fun n => if c.parameters.contains n then lookupRow row n else none)

/-- C2: custom-constraint evaluation binds row values by parameter name, not
position — permuting the declared parameter-name list never changes the
verdict on any row — and a validator referencing a name absent from the
declared list, or a declared name absent from the search space, makes
`create` fail fast with a configuration error instead of evaluating. -/
theorem custom_constraint_binds_by_name :
    (∀ (p1 p2 : List String) (validator : CustomValidator)
      (row : List (String × Value)), p1.Perm p2 →
      CustomConstraint.is_valid ⟨p1, validator⟩ row =
        CustomConstraint.is_valid ⟨p2, validator⟩ row) ∧
    (∀ (searchspaceParams parameters : List String)
      (validator : CustomValidator), (∃ n ∈ validator.uses, n ∉ parameters) →
      ∃ n, CustomConstraint.create searchspaceParams parameters validator =
        .error (.unknownParameter n)) ∧
    (∀ (searchspaceParams parameters : List String)
      (validator : CustomValidator), (∃ n ∈ parameters, n ∉ searchspaceParams) →
      ∃ n, CustomConstraint.create searchspaceParams parameters validator =
        .error (.unknownParameter n)) := by
  refine ⟨?_, ?_, ?_⟩
  · intro p1 p2 validator row hperm
    simp only [CustomConstraint.is_valid]
    congr 1
    funext n
    by_cases h : n ∈ p1
    · rw [if_pos (by simpa using h), if_pos (by simpa using hperm.mem_iff.mp h)]
    · rw [if_neg (by simpa using h),
        if_neg (by simpa using fun hc => h (hperm.mem_iff.mpr hc))]
  · intro searchspaceParams parameters validator ⟨n, hn, hnp⟩
    simp only [CustomConstraint.create]
    rcases hf1 : parameters.find? (fun n => !(searchspaceParams.contains n))
      with _ | m
    · rcases hf2 : validator.uses.find?
          (fun n => !(parameters.contains n)) with _ | m
      · exfalso
        have := List.find?_eq_none.mp hf2 n hn
        simp at this
        exact hnp this
      · exact ⟨m, rfl⟩
    · exact ⟨m, rfl⟩
  · intro searchspaceParams parameters validator ⟨n, hn, hnp⟩
    simp only [CustomConstraint.create]
    rcases hf1 : parameters.find? (fun n => !(searchspaceParams.contains n))
      with _ | m
    · exfalso
      have := List.find?_eq_none.mp hf1 n hn
      simp at this
      exact hnp this
    · exact ⟨m, rfl⟩

/-- Witness for C2: the declaration orders
`["Concentration", "Solvent", "Temperature"]` and
`["Solvent", "Temperature", "Concentration"]` give the same verdict on a
concrete row, and a validator using the undeclared name `"Missing"` makes
`create` fail. -/
theorem custom_constraint_binds_by_name_witness :
    (["Concentration", "Solvent", "Temperature"].Perm
      ["Solvent", "Temperature", "Concentration"]) ∧
    (CustomConstraint.is_valid
        ⟨["Concentration", "Solvent", "Temperature"],
          ⟨["Solvent"], fun ser => ser "Solvent" = some (.str "water")⟩⟩
        [("Solvent", .str "water"), ("Temperature", .rat 100)] =
      CustomConstraint.is_valid
        ⟨["Solvent", "Temperature", "Concentration"],
          ⟨["Solvent"], fun ser => ser "Solvent" = some (.str "water")⟩⟩
        [("Solvent", .str "water"), ("Temperature", .rat 100)]) ∧
    (∃ n, CustomConstraint.create ["Solvent"] ["Solvent"]
        ⟨["Missing"], fun _ => true⟩ = .error (.unknownParameter n)) := by
  refine ⟨by decide, ?_, ?_⟩
  · exact custom_constraint_binds_by_name.1 _ _ _ _ (by decide)
  · exact custom_constraint_binds_by_name.2.1 ["Solvent"] ["Solvent"] _
      ⟨"Missing", by decide, by decide⟩

/-- One discrete parameter: its unique name, its ordered domain values, and
its encoding into one or more numeric columns (spec §3). -/
structure DiscreteParameter (α : Type) where
  name : String
  values : List α
  encode : α → List ℚ

/-- The Cartesian product of the domains, in generation order: the first
domain varies slowest (spec §4.3 step 1). -/
def cartesianProduct {α : Type} : List (List α) → List (List α)
  | [] => [[]]
  | dom :: rest =>
    dom.flatMap (fun v => (cartesianProduct rest).map (fun row => v :: row))

/-- Encode one experimental row by concatenating the per-parameter encoded
columns in parameter-declaration order (spec §4.3 step 5). -/
def encodeRow {α : Type} (params : List (DiscreteParameter α))
    (row : List α) : List ℚ :=
  (params.zip row).flatMap (fun pv => pv.1.encode pv.2)

/-- The paired experimental/computational representations of a built
discrete subspace. -/
structure SubspaceData (α : Type) where
  exp_rep : List (List α)
  comp_rep : List (List ℚ)

/-- Modelled from the spec: the discrete subspace builder (its
implementation is not among the provided sources).  Spec §4.3: Cartesian
product of the domains in declaration order, row-predicate constraint
filtering, deduplication by the full tuple of raw values, then encoding of
every surviving row into the computational representation. -/
def build {α : Type} [DecidableEq α] (params : List (DiscreteParameter α))
    (constraints : List (List α → Bool)) : SubspaceData α :=
  { exp_rep :=
      ((cartesianProduct (params.map DiscreteParameter.values)).filter
        (fun row => constraints.all (fun c => c row))).dedup
    comp_rep :=
      (((cartesianProduct (params.map DiscreteParameter.values)).filter
        (fun row => constraints.all (fun c => c row))).dedup).map
        (encodeRow params) }

theorem encodeRow_nil {α : Type} (params : List (DiscreteParameter α)) :
    encodeRow params [] = [] := by
  simp [encodeRow]

/-- C4: for every built discrete subspace the two representations have the
same row count, and — row order being identical — independently encoding
the experimental row at any index reproduces the computational row at that
same index (out of range, both sides degenerate to the same default). -/
theorem representation_parity {α : Type} [DecidableEq α]
    (params : List (DiscreteParameter α))
    (constraints : List (List α → Bool)) :
    (build params constraints).exp_rep.length =
      (build params constraints).comp_rep.length ∧
    ∀ i : Nat, (build params constraints).comp_rep.getD i [] =
      encodeRow params ((build params constraints).exp_rep.getD i []) := by
  constructor
  · simp [build]
  · intro i
    by_cases h : i < (build params constraints).exp_rep.length
    · have hc : i < (build params constraints).comp_rep.length := by
        simpa [build] using h
      rw [List.getD_eq_getElem _ _ h, List.getD_eq_getElem _ _ hc]
      simp [build]
    · have he : (build params constraints).exp_rep.length ≤ i := by omega
      have hcl : (build params constraints).comp_rep.length ≤ i := by
        simpa [build] using he
      rw [List.getD_eq_default _ _ he, List.getD_eq_default _ _ hcl,
        encodeRow_nil]

/-- The `dict_solvent` mapping of
`examples/Constraints_Discrete/custom_constraints.py`:
substance labels with their SMILES data. -/
def dict_solvent : List (String × String) :=
  [("water", "O"), ("C1", "C"), ("C2", "CC"), ("C3", "CCC"),
   ("C4", "CCCC"), ("C5", "CCCCC"), ("c6", "c1ccccc1"), ("C6", "CCCCCC")]

/-- Index-based one-column encoding.  Modelled from the spec: the RDKIT
descriptor columns of `GenericSubstance` and the INT encoding of
`Categorical` are computed by code not among the provided sources; spec
§4.1 only requires a deterministic per-value encoding, which the claims
below never inspect, so the position in the declared domain is used. -/
def indexEncode (vals : List Value) (v : Value) : List ℚ :=
  [(vals.indexOf v : ℚ)]

/-- Identity encoding of a numeric value (spec §4.1: for numeric parameters
the encoding is the value itself). -/
def numericEncode : Value → List ℚ
  | .rat q => [q]
  | .str _ => []

/-- The parameter `solvent = GenericSubstance("Solvent", data=dict_solvent,
encoding="RDKIT")`: its experimental values are the label strings. -/
def solvent : DiscreteParameter Value :=
  ⟨"Solvent", dict_solvent.map (fun p => .str p.1),
    indexEncode (dict_solvent.map (fun p => .str p.1))⟩

/-- The parameter `speed = Categorical("Speed", values=[...], encoding="INT")`. -/
def speed : DiscreteParameter Value :=
  ⟨"Speed",
    ["very slow", "slow", "normal", "fast", "very fast"].map .str,
    indexEncode (["very slow", "slow", "normal", "fast", "very fast"].map
      .str)⟩

/-- The parameter `temperature = NumericDiscrete("Temperature",
values=list(np.linspace(100, 200, 10)), tolerance=0.5)`: ten levels linearly
spaced over [100, 200], the k-th being 100 + 100·k/9 (floats modelled as
exact rationals). -/
def temperature : DiscreteParameter Value :=
  ⟨"Temperature",
    (List.range 10).map (fun k => .rat (100 + 100 * (k : ℚ) / 9)),
    numericEncode⟩

/-- The parameter `concentration = NumericDiscrete("Concentration",
values=[1, 2, 5, 10],
tolerance=0.4)`. -/
def concentration : DiscreteParameter Value :=
  ⟨"Concentration", [(1 : ℚ), 2, 5, 10].map .rat, numericEncode⟩

/-- The list `parameters = [solvent, speed, temperature, concentration]`. -/
def parameters : List (DiscreteParameter Value) :=
  [solvent, speed, temperature, concentration]

/-- The declared parameter names, in declaration order. -/
def paramNames : List String :=
  parameters.map DiscreteParameter.name

/-- The validator `custom_function` of the example, reading `Solvent`,
`Temperature` and `Concentration` from the row by name.  Its two sequential
`if` blocks (each returning `False` when its inner condition fires) are
written as one `if`-chain in execution order.  The fallback branch is
unreachable on scenario rows, where all three names are bound with these
types. -/
def custom_function (ser : String → Option Value) : Bool :=
  match ser "Solvent", ser "Temperature", ser "Concentration" with
  | some (.str solventVal), some (.rat temperatureVal),
      some (.rat concentrationVal) =>
    if solventVal = "water" ∧ temperatureVal > 120 ∧ concentrationVal > 5
      then false
    else if solventVal = "water" ∧ temperatureVal > 180 ∧
        concentrationVal > 3 then false
    else if solventVal = "C3" ∧ temperatureVal < 150 ∧
        concentrationVal > 3 then false
    else true
  | _, _, _ => true

/-- The `dict_constraint` of the example: the CUSTOM constraint declares the
parameters
`["Concentration", "Solvent", "Temperature"]` and the validator
`custom_function` (which reads the names Solvent, Temperature and
Concentration). -/
def scenarioConstraint : CustomConstraint :=
  ⟨["Concentration", "Solvent", "Temperature"],
    ⟨["Solvent", "Temperature", "Concentration"], custom_function⟩⟩

/-- The row predicate the builder applies: the custom constraint evaluated
on the name-indexed view of the row. -/
def scenarioPredicate (row : List Value) : Bool :=
  scenarioConstraint.is_valid (paramNames.zip row)

/-- The searchspace of the example:
`SearchSpace.create(parameters=parameters, constraints=[constraint])`. -/
def searchspace : SubspaceData Value :=
  build parameters [scenarioPredicate]

/-- Pandas `df[col].apply(lambda x: x > bound)` on a name-addressed cell. -/
def ratGT (v : Option Value) (bound : ℚ) : Bool :=
  match v with
  | some (.rat x) => decide (bound < x)
  | _ => false

/-- Pandas `df[col].apply(lambda x: x < bound)` on a name-addressed cell. -/
def ratLT (v : Option Value) (bound : ℚ) : Bool :=
  match v with
  | some (.rat x) => decide (x < bound)
  | _ => false

/-- Pandas `df[col].eq(s)` on a name-addressed cell. -/
def strEq (v : Option Value) (s : String) : Bool :=
  match v with
  | some (.str x) => x == s
  | _ => false

/-- First assert of the example: number of rows with water, temperature
above 120 and concentration above 5. -/
def countWater120 (rows : List (List Value)) : Nat :=
  (rows.filter (fun row =>
    ratGT (lookupRow (paramNames.zip row) "Concentration") 5 &&
    ratGT (lookupRow (paramNames.zip row) "Temperature") 120 &&
    strEq (lookupRow (paramNames.zip row) "Solvent") "water")).length

/-- Second assert: water, temperature above 180, concentration above 3. -/
def countWater180 (rows : List (List Value)) : Nat :=
  (rows.filter (fun row =>
    ratGT (lookupRow (paramNames.zip row) "Concentration") 3 &&
    ratGT (lookupRow (paramNames.zip row) "Temperature") 180 &&
    strEq (lookupRow (paramNames.zip row) "Solvent") "water")).length

/-- Third assert: C3, temperature below 150, concentration above 3. -/
def countC3cold (rows : List (List Value)) : Nat :=
  (rows.filter (fun row =>
    ratGT (lookupRow (paramNames.zip row) "Concentration") 3 &&
    ratLT (lookupRow (paramNames.zip row) "Temperature") 150 &&
    strEq (lookupRow (paramNames.zip row) "Solvent") "C3")).length

/-- The BayBE object state over the iteration loop: the built experimental
representation plus the measurement metadata. -/
structure BaybeState where
  exp_rep : List (List Value)
  measurements : List (List Value)

/-- The freshly constructed BayBE object of the example. -/
def initialBaybe : BaybeState :=
  ⟨searchspace.exp_rep, []⟩

/-- Modelled from the spec: `recommend` selects a batch among the not yet
measured candidates; by spec §3 the representation tables are immutable
once built, so recommendation never alters `exp_rep`. -/
def recommend (st : BaybeState) (batch_quantity : Nat) : List (List Value) :=
  (st.exp_rep.filter (fun row => !(st.measurements.contains row))).take
    batch_quantity

/-- Modelled from the spec: `add_measurements` records measured rows as
metadata (spec §3: "a separate set of row identifiers, not a table
mutation"). -/
def add_measurements (st : BaybeState) (measured : List (List Value)) :
    BaybeState :=
  { st with measurements := st.measurements ++ measured }

/-- One iteration of the example loop: recommend a batch of 5 and feed the
results back. -/
def iteration (st : BaybeState) : BaybeState :=
  add_measurements st (recommend st 5)

theorem custom_function_no_viol (ser : String → Option Value)
    (h : custom_function ser = true) :
    (ratGT (ser "Concentration") 5 && ratGT (ser "Temperature") 120 &&
      strEq (ser "Solvent") "water") = false ∧
    (ratGT (ser "Concentration") 3 && ratGT (ser "Temperature") 180 &&
      strEq (ser "Solvent") "water") = false ∧
    (ratGT (ser "Concentration") 3 && ratLT (ser "Temperature") 150 &&
      strEq (ser "Solvent") "C3") = false := by
  rcases hS : ser "Solvent" with _ | (s | q)
  · simp [strEq, hS]
  · rcases hT : ser "Temperature" with _ | (s2 | tq)
    · simp [ratGT, ratLT, hT]
    · simp [ratGT, ratLT, hT]
    · rcases hC : ser "Concentration" with _ | (s3 | cq)
      · simp [ratGT, hC]
      · simp [ratGT, hC]
      · simp only [custom_function, hS, hT, hC] at h
        split_ifs at h with h1 h2 h3
        refine ⟨?_, ?_, ?_⟩
        · rw [Bool.eq_false_iff]
          simp only [ratGT, strEq, hS, hT, hC]
          intro hx
          simp only [Bool.and_eq_true, decide_eq_true_eq, beq_iff_eq] at hx
          exact h1 ⟨hx.2, hx.1.2, hx.1.1⟩
        · rw [Bool.eq_false_iff]
          simp only [ratGT, strEq, hS, hT, hC]
          intro hx
          simp only [Bool.and_eq_true, decide_eq_true_eq, beq_iff_eq] at hx
          exact h2 ⟨hx.2, hx.1.2, hx.1.1⟩
        · rw [Bool.eq_false_iff]
          simp only [ratGT, ratLT, strEq, hS, hT, hC]
          intro hx
          simp only [Bool.and_eq_true, decide_eq_true_eq, beq_iff_eq] at hx
          exact h3 ⟨hx.2, hx.1.2, hx.1.1⟩
  · simp [strEq, hS]

/-- The name-indexed view of a scenario row that the engine passes to the
validator: the row restricted to the declared parameters of the constraint. -/
def scenarioSer (row : List Value) : String → Option Value :=
  fun n => if scenarioConstraint.parameters.contains n
    then lookupRow (paramNames.zip row) n else none

theorem scenarioPredicate_eq (row : List Value) :
    scenarioPredicate row = custom_function (scenarioSer row) := rfl

theorem scenarioSer_solvent (row : List Value) :
    scenarioSer row "Solvent" = lookupRow (paramNames.zip row) "Solvent" :=
  rfl

theorem scenarioSer_temperature (row : List Value) :
    scenarioSer row "Temperature" =
      lookupRow (paramNames.zip row) "Temperature" := rfl

theorem scenarioSer_concentration (row : List Value) :
    scenarioSer row "Concentration" =
      lookupRow (paramNames.zip row) "Concentration" := rfl

theorem iteration_exp_rep (st : BaybeState) :
    (iteration st).exp_rep = st.exp_rep := rfl

theorem iterate_exp_rep (n : Nat) :
    (iteration^[n] initialBaybe).exp_rep = searchspace.exp_rep := by
  induction n with
  | zero => rfl
  | succ n ih => rw [Function.iterate_succ_apply', iteration_exp_rep, ih]

theorem scenarioPredicate_of_mem {row : List Value}
    (h : row ∈ searchspace.exp_rep) : scenarioPredicate row = true := by
  have h1 :
      row ∈ (cartesianProduct (parameters.map DiscreteParameter.values)).filter
        (fun r => [scenarioPredicate].all (fun c => c r)) :=
    List.mem_dedup.mp h
  have h2 := (List.mem_filter.mp h1).2
  simpa using h2

/-- C1: in the Scenario-A searchspace built with the custom constraint,
every row of the experimental representation satisfies the validator, the
three forbidden-combination counts of the assert block of the example (water &
Temperature>120 & Concentration>5; water & Temperature>180 &
Concentration>3; C3 & Temperature<150 & Concentration>3) are all exactly 0,
and this holds after every recommend/add_measurements iteration. -/
theorem scenario_constraint_counts_zero (n : Nat) :
    ((iteration^[n] initialBaybe).exp_rep.all scenarioPredicate = true) ∧
    countWater120 (iteration^[n] initialBaybe).exp_rep = 0 ∧
    countWater180 (iteration^[n] initialBaybe).exp_rep = 0 ∧
    countC3cold (iteration^[n] initialBaybe).exp_rep = 0 := by
  rw [iterate_exp_rep]
  refine ⟨List.all_eq_true.mpr (fun row h => scenarioPredicate_of_mem h),
    ?_, ?_, ?_⟩
  · rw [countWater120, List.length_eq_zero]
    refine List.filter_eq_nil_iff.mpr fun row hrow => ?_
    have hv := scenarioPredicate_of_mem hrow
    rw [scenarioPredicate_eq] at hv
    have hz := (custom_function_no_viol _ hv).1
    rw [scenarioSer_concentration, scenarioSer_temperature,
      scenarioSer_solvent] at hz
    simp [hz]
  · rw [countWater180, List.length_eq_zero]
    refine List.filter_eq_nil_iff.mpr fun row hrow => ?_
    have hv := scenarioPredicate_of_mem hrow
    rw [scenarioPredicate_eq] at hv
    have hz := (custom_function_no_viol _ hv).2.1
    rw [scenarioSer_concentration, scenarioSer_temperature,
      scenarioSer_solvent] at hz
    simp [hz]
  · rw [countC3cold, List.length_eq_zero]
    refine List.filter_eq_nil_iff.mpr fun row hrow => ?_
    have hv := scenarioPredicate_of_mem hrow
    rw [scenarioPredicate_eq] at hv
    have hz := (custom_function_no_viol _ hv).2.2
    rw [scenarioSer_concentration, scenarioSer_temperature,
      scenarioSer_solvent] at hz
    simp [hz]
